import Mathlib

/-!
Verification development for the WASM–EVM bridging interpreter of
fluentlabs-xyz/go-ethereum.

Shallow embedding of:
  - `core/vm/wasm.go`: the host-function dispatch layer (`registerNativeFunctions`,
    `copyLastStackItemToMemory`, `registerGasCheckFunction`, `execEvmOp`'s gas
    accounting, the `Run` driver's scope-queue and readOnly discipline, and the
    engine return-code translation);
  - the `WebAssemblyLogger` trace recorder (`CaptureWasmState`, `CaptureGasState`,
    `CaptureState`, `GetResult`).

Go machine integers are modelled as `Nat` (with explicit `% 2 ^ 64` where the
code reinterprets an `i64` as a `u64`); Go panics are modelled as dedicated
error constructors; Go `nil` slices/maps are modelled as `Option`.
-/

namespace GoEthWasm

/-- EVM opcodes routed through WASM host functions (`core/vm/wasm.go`,
`wasmFunctionTypes` / `registerNativeFunctions`). -/
inductive OpCode
  | STOP | SHA3 | ADDRESS | BALANCE | ORIGIN | CALLER | CALLVALUE
  | CALLDATALOAD | CALLDATASIZE | CALLDATACOPY | CODESIZE | CODECOPY
  | GASPRICE | EXTCODESIZE | EXTCODECOPY | EXTCODEHASH
  | RETURNDATASIZE | RETURNDATACOPY | BLOCKHASH | COINBASE | TIMESTAMP
  | NUMBER | DIFFICULTY | GASLIMIT | CHAINID | SELFBALANCE | BASEFEE
  | SLOAD | SSTORE | PC | MSIZE | GAS
  | LOG0 | LOG1 | LOG2 | LOG3 | LOG4
  | CREATE | CALL | CALLCODE | RETURN | DELEGATECALL | CREATE2
  | STATICCALL | REVERT | SELFDESTRUCT
deriving DecidableEq, Repr

/-- Byte value of each EVM opcode (upstream `core/vm/opcodes.go`). -/
def opCodeByte : OpCode → Nat
  | .STOP => 0x00
  | .SHA3 => 0x20
  | .ADDRESS => 0x30
  | .BALANCE => 0x31
  | .ORIGIN => 0x32
  | .CALLER => 0x33
  | .CALLVALUE => 0x34
  | .CALLDATALOAD => 0x35
  | .CALLDATASIZE => 0x36
  | .CALLDATACOPY => 0x37
  | .CODESIZE => 0x38
  | .CODECOPY => 0x39
  | .GASPRICE => 0x3a
  | .EXTCODESIZE => 0x3b
  | .EXTCODECOPY => 0x3c
  | .RETURNDATASIZE => 0x3d
  | .RETURNDATACOPY => 0x3e
  | .EXTCODEHASH => 0x3f
  | .BLOCKHASH => 0x40
  | .COINBASE => 0x41
  | .TIMESTAMP => 0x42
  | .NUMBER => 0x43
  | .DIFFICULTY => 0x44
  | .GASLIMIT => 0x45
  | .CHAINID => 0x46
  | .SELFBALANCE => 0x47
  | .BASEFEE => 0x48
  | .SLOAD => 0x54
  | .SSTORE => 0x55
  | .PC => 0x58
  | .MSIZE => 0x59
  | .GAS => 0x5a
  | .LOG0 => 0xa0
  | .LOG1 => 0xa1
  | .LOG2 => 0xa2
  | .LOG3 => 0xa3
  | .LOG4 => 0xa4
  | .CREATE => 0xf0
  | .CALL => 0xf1
  | .CALLCODE => 0xf2
  | .RETURN => 0xf3
  | .DELEGATECALL => 0xf4
  | .CREATE2 => 0xf5
  | .STATICCALL => 0xfa
  | .REVERT => 0xfd
  | .SELFDESTRUCT => 0xff

/-- The WebAssembly `call` opcode byte (`wasm.Op_call`). -/
def wasmOpCall : Nat := 0x10

/-- Error taxonomy of the interpreter (`ErrOutOfGas`, `ErrExecutionReverted`,
`errStopToken`, `ErrGasUintOverflow` from `core/vm`). -/
inductive VMError
  | outOfGas
  | executionReverted
  | stopToken
  | gasUintOverflow
deriving DecidableEq, Repr

/-- Engine-side return codes (`zkwasm_wasmi.ComputeTraceErrorCode`). -/
inductive ComputeTraceErrorCode
  | ok
  | outOfGas
  | executionReverted
  | stopToken
  | unknown
deriving DecidableEq, Repr

/-- Big-endian minimal byte representation of a number: the model of
`uint256.Int.Bytes()` (empty for zero).  Structural recursion on a fuel
argument so that witnesses evaluate by kernel reduction; `natBytesBE` below
supplies fuel `n`, which always suffices since `n / 256 < n` for `n > 0`. -/
def natBytesBEAux : Nat → Nat → List Nat
  | 0, _ => []
  | fuel + 1, n => if n = 0 then [] else natBytesBEAux fuel (n / 256) ++ [n % 256]

/-- Minimal big-endian bytes of `n` (model of `uint256.Int.Bytes()`). -/
def natBytesBE (n : Nat) : List Nat := natBytesBEAux n n

/-- Constant `AddressDestLen` from `core/vm/wasm.go`. -/
def AddressDestLen : Nat := 20

/-- Constant `SizeDestLen` from `core/vm/wasm.go`. -/
def SizeDestLen : Nat := 4

/-- Constant `Uint256DestLen` from `core/vm/wasm.go`. -/
def Uint256DestLen : Nat := 32

/-- Constant `Uint32DestLen` from `core/vm/wasm.go`. -/
def Uint32DestLen : Nat := 4

/-- Constant `Uint64DestLen` from `core/vm/wasm.go`. -/
def Uint64DestLen : Nat := 8

/-- Constant `HashDestLen` from `core/vm/wasm.go`. -/
def HashDestLen : Nat := 32

/-- Constant `BoolDestLen` from `core/vm/wasm.go`. -/
def BoolDestLen : Nat := 1

/-- Outcome of the `copyLastStackItemToMemory` finalizer.  `ok destOffset bytes`
carries the guest-memory write `scope.Memory.Set(destOffset, len(res), res)`
(forwarded to the engine through the memory interceptor); `errMissingDest` is
the `fmt.Errorf` return for an empty argument list; `panicSliceOutOfRange` is
the Go runtime panic raised by `res[destLen-len(lastBytes):]` when
`len(lastBytes) > destLen` makes the slice index negative. -/
inductive FinalizerResult
  | ok (destOffset : Nat) (bytes : List Nat)
  | errMissingDest
  | panicSliceOutOfRange
deriving DecidableEq, Repr

/-- Model of `copyLastStackItemToMemory(destLen)` applied to the host-call
arguments `input` and the top EVM stack item `stackTop`
(`scope.Stack.peek()`), from `core/vm/wasm.go` lines 524–536. -/
def copyLastStackItemToMemory (destLen : Nat) (input : List Nat) (stackTop : Nat) :
    FinalizerResult :=
  match input.getLast? with
  | none => .errMissingDest
  | some destOffset =>
    let lastBytes := natBytesBE stackTop
    if destLen < lastBytes.length then .panicSliceOutOfRange
    else .ok destOffset (List.replicate (destLen - lastBytes.length) 0 ++ lastBytes)

/-- Type `FieldType` from `core/vm/wasm.go` (argument kinds understood by
`replaceMemOffsetWithValueOnStack`). -/
inductive FieldType
  | unknownFieldType
  | addressFieldType
  | uint256FieldType
deriving DecidableEq, Repr

/-- One `registerNativeFunction` call: import name, opcode, the
`copyLastStackItemToMemory` finalizer's `destLen` (when a finalizer is
registered), and the `replaceMemOffsetWithValueOnStack` pre-processors
as `(argIndex, fieldType)` pairs. -/
structure Registration where
  fnName : String
  opcode : OpCode
  finalizerDestLen : Option Nat
  preprocessors : List (Nat × FieldType)
deriving DecidableEq, Repr

/-- The registration table of `registerNativeFunctions` (`core/vm/wasm.go`
lines 660–739), one entry per `registerNativeFunction` call, in source order. -/
def registerNativeFunctionsList : List Registration :=
  [ ⟨"_evm_return", .RETURN, none, []⟩,
    ⟨"_evm_address", .ADDRESS, some AddressDestLen, []⟩,
    ⟨"_evm_stop", .STOP, none, []⟩,
    ⟨"_evm_keccak256", .SHA3, some HashDestLen, []⟩,
    ⟨"_evm_balance", .BALANCE, some Uint256DestLen, [(0, .addressFieldType)]⟩,
    ⟨"_evm_origin", .ORIGIN, some AddressDestLen, []⟩,
    ⟨"_evm_caller", .CALLER, some AddressDestLen, []⟩,
    ⟨"_evm_callvalue", .CALLVALUE, some Uint256DestLen, []⟩,
    ⟨"_evm_calldataload", .CALLDATALOAD, some HashDestLen, [(0, .uint256FieldType)]⟩,
    ⟨"_evm_calldatasize", .CALLDATASIZE, some SizeDestLen, []⟩,
    ⟨"_evm_calldatacopy", .CALLDATACOPY, none, []⟩,
    ⟨"_evm_codesize", .CODESIZE, some SizeDestLen, []⟩,
    ⟨"_evm_codecopy", .CODECOPY, none, []⟩,
    ⟨"_evm_gasprice", .GASPRICE, some Uint256DestLen, []⟩,
    ⟨"_evm_extcodesize", .EXTCODESIZE, some SizeDestLen, [(0, .addressFieldType)]⟩,
    ⟨"_evm_extcodecopy", .EXTCODECOPY, none, [(0, .addressFieldType)]⟩,
    ⟨"_evm_extcodehash", .EXTCODEHASH, some HashDestLen, [(0, .addressFieldType)]⟩,
    ⟨"_evm_returndatasize", .RETURNDATASIZE, some SizeDestLen, []⟩,
    ⟨"_evm_returndatacopy", .RETURNDATACOPY, none, []⟩,
    ⟨"_evm_blockhash", .BLOCKHASH, some HashDestLen, []⟩,
    ⟨"_evm_coinbase", .COINBASE, some AddressDestLen, []⟩,
    ⟨"_evm_timestamp", .TIMESTAMP, some Uint64DestLen, []⟩,
    ⟨"_evm_number", .NUMBER, some Uint64DestLen, []⟩,
    ⟨"_evm_difficulty", .DIFFICULTY, some Uint256DestLen, []⟩,
    ⟨"_evm_gaslimit", .GASLIMIT, some Uint64DestLen, []⟩,
    ⟨"_evm_chainid", .CHAINID, some Uint256DestLen, []⟩,
    ⟨"_evm_selfbalance", .SELFBALANCE, some Uint256DestLen, []⟩,
    ⟨"_evm_basefee", .BASEFEE, some Uint256DestLen, []⟩,
    ⟨"_evm_sload", .SLOAD, some Uint256DestLen, [(0, .uint256FieldType)]⟩,
    ⟨"_evm_sstore", .SSTORE, none, [(0, .uint256FieldType), (1, .uint256FieldType)]⟩,
    ⟨"_evm_pc", .PC, some Uint64DestLen, []⟩,
    ⟨"_evm_msize", .MSIZE, some Uint64DestLen, []⟩,
    ⟨"_evm_gas", .GAS, some Uint64DestLen, []⟩,
    ⟨"_evm_log0", .LOG0, none, []⟩,
    ⟨"_evm_log1", .LOG1, none, [(2, .uint256FieldType)]⟩,
    ⟨"_evm_log2", .LOG2, none, [(2, .uint256FieldType), (3, .uint256FieldType)]⟩,
    ⟨"_evm_log3", .LOG3, none,
      [(2, .uint256FieldType), (3, .uint256FieldType), (4, .uint256FieldType)]⟩,
    ⟨"_evm_log4", .LOG4, none,
      [(2, .uint256FieldType), (3, .uint256FieldType), (4, .uint256FieldType),
       (5, .uint256FieldType)]⟩,
    ⟨"_evm_create", .CREATE, some AddressDestLen, [(0, .uint256FieldType)]⟩,
    ⟨"_evm_call", .CALL, some BoolDestLen,
      [(1, .addressFieldType), (2, .uint256FieldType)]⟩,
    ⟨"_evm_callcode", .CALLCODE, some BoolDestLen,
      [(1, .addressFieldType), (2, .uint256FieldType)]⟩,
    ⟨"_evm_delegatecall", .DELEGATECALL, some BoolDestLen, [(1, .uint256FieldType)]⟩,
    ⟨"_evm_create2", .CREATE2, some AddressDestLen, [(0, .uint256FieldType)]⟩,
    ⟨"_evm_staticcall", .STATICCALL, some BoolDestLen, [(1, .addressFieldType)]⟩,
    ⟨"_evm_revert", .REVERT, none, []⟩,
    ⟨"_evm_selfdestruct", .SELFDESTRUCT, none, []⟩ ]

/-- Finalizer `destLen` registered for a given import name. -/
def regFinalizerDestLen (name : String) : Option (Option Nat) :=
  (registerNativeFunctionsList.find? (fun r => r.fnName = name)).map
    Registration.finalizerDestLen

/-- Trace record families (`logger.OpCodeFamily`). -/
inductive OpCodeFamily
  | unknown
  | evm
  | wasm
  | gas
deriving DecidableEq, Repr

/-- The `vm.OpCodeInfo` interface value stored in a trace record: one of the
three implementations `wasmOpcodeInfo` (`core/vm/wasm.go`), `GasOpCodeInfo`
and `EvmOpCodeInfo` (the logger file). -/
inductive OpInfo
  | wasmOp (pc : Nat) (code : Nat) (name : String) (params : List Nat)
  | gasOp (b : Nat)
  | evmOp (op : OpCode)
deriving DecidableEq, Repr

/-- Method `OpCodeInfo.Code()`. -/
def OpInfo.code : OpInfo → Nat
  | .wasmOp _ c _ _ => c
  | .gasOp b => b
  | .evmOp op => opCodeByte op

/-- Method `OpCodeInfo.Pc()` (`GasOpCodeInfo` and `EvmOpCodeInfo` always return 0). -/
def OpInfo.pc : OpInfo → Nat
  | .wasmOp p _ _ _ => p
  | .gasOp _ => 0
  | .evmOp _ => 0

/-- One trace record (`logger.WasmLog`), fields in source order.  Go `nil`
slices/maps are `none`; `u256` stack items are `Nat`. -/
structure WasmLog where
  pc : Nat
  opFamily : OpCodeFamily
  op : OpInfo
  params : List Nat
  gas : Nat
  gasCost : Nat
  memory : Option (List Nat)
  memoryOffset : Nat
  memorySize : Nat
  stack : Option (List Nat)
  returnData : Option (List Nat)
  storage : Option (List (Nat × Nat))
  depth : Nat
  refundCounter : Nat
  err : Option VMError
  keep : Nat
  drop : Nat
deriving DecidableEq, Repr

/-- Structure `vm.MemoryChangeInfo`. -/
structure MemoryChangeInfo where
  offset : Nat
  value : List Nat
deriving DecidableEq, Repr

/-- Go runtime panics of the trace recorder: `panic("trace order is corrupted")`
and the index-out-of-range panic of `l.logs[len(l.logs)-1]` on an empty log. -/
inductive PanicMsg
  | traceOrderCorrupted
  | indexOutOfRange
deriving DecidableEq, Repr

/-- State of a `WebAssemblyLogger`: the `logger.Config` flags, the interrupt
flag, the per-contract storage delta (the Go code keys it by contract address;
this model tracks the single contract of the run), the trace log, the captured
output, the used gas, and the error/abort fields. -/
structure LoggerState where
  cfgEnableMemory : Bool
  cfgDisableStack : Bool
  cfgDisableStorage : Bool
  cfgEnableReturnData : Bool
  cfgLimit : Nat
  interrupt : Bool
  storage : List (Nat × Nat)
  logs : List WasmLog
  output : List Nat
  usedGas : Nat
  err : Option VMError
  reason : Option VMError
deriving DecidableEq, Repr

/-- Model of `CaptureWasmState(pc, op, memory, scope, depth, drop, keep)`: appends a
WASM-family record unless interrupted or the record limit is reached.  The
scope is flattened to its stack data and contract gas; `refund` stands for
`l.env.StateDB.GetRefund()`. -/
def CaptureWasmState (l : LoggerState) (op : OpInfo) (memory : Option MemoryChangeInfo)
    (stackData : List Nat) (contractGas : Nat) (depth : Nat) (drop keep : Nat)
    (refund : Nat) : LoggerState :=
  if l.interrupt then l
  else if l.cfgLimit ≠ 0 ∧ l.cfgLimit ≤ l.logs.length then l
  else
    let captureMem := l.cfgEnableMemory ∧ memory.isSome
    let memData : Option (List Nat) :=
      if captureMem then some ((memory.getD ⟨0, []⟩).value) else none
    let memOffset := if captureMem then (memory.getD ⟨0, []⟩).offset else 0
    let memLen := if captureMem then (memory.getD ⟨0, []⟩).value.length else 0
    let stck : Option (List Nat) := if ¬l.cfgDisableStack then some stackData else none
    { l with logs := l.logs ++
        [{ pc := op.pc, opFamily := .wasm, op := op, params := [],
           gas := contractGas, gasCost := 0,
           memory := memData, memoryOffset := memOffset, memorySize := memLen,
           stack := stck, returnData := none, storage := none, depth := depth,
           refundCounter := refund, err := none, keep := keep, drop := drop }] }

/-- The GAS-family record `CaptureGasState` builds from the last (WASM `call`)
record: inherits pc, memory and stack fields; `GasCost` is the charged amount;
`Gas` is the contract's remaining gas at capture time. -/
def gasLogOf (lastLog : WasmLog) (gasCost scopeGas depth : Nat)
    (err : Option VMError) : WasmLog :=
  { pc := lastLog.pc, opFamily := .gas, op := .gasOp 0, params := [],
    gas := scopeGas, gasCost := gasCost,
    memory := lastLog.memory, memoryOffset := lastLog.memoryOffset,
    memorySize := lastLog.memorySize, stack := lastLog.stack,
    returnData := some [], storage := none, depth := depth,
    refundCounter := lastLog.refundCounter, err := err, keep := 0, drop := 0 }

/-- Model of `CaptureGasState(gasCost, scope, depth, err)`: unless interrupted, replaces
the last record in place with a GAS-family record; panics when the log is
empty (index out of range) or the last record is not a WASM `call`
("trace order is corrupted").  Note: no record-limit check is performed. -/
def CaptureGasState (l : LoggerState) (gasCost scopeGas depth : Nat)
    (err : Option VMError) : Except PanicMsg LoggerState :=
  if l.interrupt then .ok l
  else
    match l.logs.getLast? with
    | none => .error .indexOutOfRange
    | some lastLog =>
      if lastLog.opFamily ≠ .wasm ∨ lastLog.op.code ≠ wasmOpCall then
        .error .traceOrderCorrupted
      else
        .ok { l with logs :=
          l.logs.dropLast ++ [gasLogOf lastLog gasCost scopeGas depth err] }

/-- Association-list write used for the storage delta (`Storage` map update). -/
def storeSet (m : List (Nat × Nat)) (k v : Nat) : List (Nat × Nat) :=
  (k, v) :: m.filter (fun p => p.1 ≠ k)

/-- The SLOAD/SSTORE storage tracking of `CaptureState`: returns the updated
per-contract storage map and the snapshot placed in the record (`nil` unless
the opcode is SLOAD/SSTORE with enough stack items and storage capture is
enabled).  `stackData` lists the EVM stack bottom-to-top (`stack.Data()`);
`getState` stands for `l.env.StateDB.GetState`. -/
def captureStateStorage (disableStorage : Bool) (storage : List (Nat × Nat))
    (op : OpCode) (stackData : List Nat) (getState : Nat → Nat) :
    List (Nat × Nat) × Option (List (Nat × Nat)) :=
  let stackLen := stackData.length
  if ¬disableStorage ∧ (op = .SLOAD ∨ op = .SSTORE) then
    if op = .SLOAD ∧ 1 ≤ stackLen then
      let address := (stackData.getLast?).getD 0
      let m := storeSet storage address (getState address)
      (m, some m)
    else if op = .SSTORE ∧ 2 ≤ stackLen then
      let address := (stackData.getLast?).getD 0
      let value := (stackData.get? (stackLen - 2)).getD 0
      let m := storeSet storage address value
      (m, some m)
    else (storage, none)
  else (storage, none)

/-- The EVM-family record `CaptureState` builds from the last (WASM `call`)
record: inherits pc, memory and stack fields; carries the opcode, pre-gas,
cost, return data, storage delta and error. -/
def evmLogOf (lastLog : WasmLog) (op : OpCode) (gas cost : Nat)
    (rdata : Option (List Nat)) (storageSnap : Option (List (Nat × Nat)))
    (depth refund : Nat) (err : Option VMError) : WasmLog :=
  { pc := lastLog.pc, opFamily := .evm, op := .evmOp op, params := [],
    gas := gas, gasCost := cost,
    memory := lastLog.memory, memoryOffset := lastLog.memoryOffset,
    memorySize := lastLog.memorySize, stack := lastLog.stack,
    returnData := rdata, storage := storageSnap, depth := depth,
    refundCounter := refund, err := err, keep := 0, drop := 0 }

/-- Model of `CaptureState(pc, op, gas, cost, scope, rData, depth, err)`: unless
interrupted or the record limit is reached, tracks SLOAD/SSTORE storage,
then replaces the last record with an EVM-family record; panics when the log
is empty or the last record is not a WASM `call`.  (The Go code also takes
memory and stack snapshots of the current scope, but the record it builds
uses the last record's memory and stack fields, so those snapshots are
unused and not modelled.) -/
def CaptureState (l : LoggerState) (op : OpCode) (gas cost : Nat)
    (stackData : List Nat) (rData : List Nat) (depth refund : Nat)
    (getState : Nat → Nat) (err : Option VMError) : Except PanicMsg LoggerState :=
  if l.interrupt then .ok l
  else if l.cfgLimit ≠ 0 ∧ l.cfgLimit ≤ l.logs.length then .ok l
  else
    let stor := captureStateStorage l.cfgDisableStorage l.storage op stackData getState
    let rdata : Option (List Nat) := if l.cfgEnableReturnData then some rData else none
    match l.logs.getLast? with
    | none => .error .traceOrderCorrupted
    | some lastLog =>
      if lastLog.opFamily ≠ .wasm ∨ lastLog.op.code ≠ wasmOpCall then
        .error .traceOrderCorrupted
      else
        .ok { l with storage := stor.1,
                     logs := l.logs.dropLast ++
                       [evmLogOf lastLog op gas cost rdata stor.2 depth refund err] }

/-- Lowercase hex digit. -/
def hexDigit (n : Nat) : Char :=
  if n < 10 then Char.ofNat (48 + n) else Char.ofNat (87 + n)

/-- Model of `fmt.Sprintf("%x", bytes)`: two lowercase hex digits per byte. -/
def bytesToHex (bs : List Nat) : String :=
  String.mk (bs.flatMap (fun b => [hexDigit (b / 16), hexDigit (b % 16)]))

/-- The formatted execution result fields relevant to the claims
(`logger.WasmExecutionResult`). -/
structure WasmExecutionResult where
  gas : Nat
  failed : Bool
  returnValue : String
deriving DecidableEq, Repr

/-- Model of `GetResult()`: abort with `l.reason` when tracing was interrupted;
otherwise format the result.  `returnValue` is the hex encoding of the
captured output, blanked when the run failed with any error other than
`ErrExecutionReverted`. -/
def GetResult (l : LoggerState) : Except VMError WasmExecutionResult :=
  match l.reason with
  | some r => .error r
  | none =>
    let failed := l.err.isSome
    let returnVal :=
      if failed ∧ l.err ≠ some .executionReverted then "" else bytesToHex l.output
    .ok { gas := l.usedGas, failed := failed, returnValue := returnVal }

/-- Modelled from the spec: `Contract.UseGas` (in `core/vm/contract.go`, not
among the provided sources) — "subtract `amount` from remaining-gas" when
sufficient; returns whether the deduction happened and the new gas. -/
def UseGas (gas amount : Nat) : Bool × Nat :=
  if gas < amount then (false, gas) else (true, gas - amount)

/-- Outcome of one invocation of the injected `env.gas` host function:
a return code handed to the engine, a Go panic carrying a `vm` error
(`panic(ErrOutOfGas)`), or a panic raised inside the trace recorder. -/
inductive GasCallResult
  | returned (code : ComputeTraceErrorCode) (gasAfter : Nat) (logger : LoggerState)
  | panicked (e : VMError) (gasAfter : Nat) (logger : LoggerState)
  | loggerPanicked (m : PanicMsg)
deriving DecidableEq, Repr

/-- The host callback registered by `registerGasCheckFunction`
(`core/vm/wasm.go` lines 741–771).  `params` are the raw `i64` arguments;
the single argument is reinterpreted as a `u64`
(`gasSpend := uint64(int64(input[0]))`, i.e. `v mod 2^64`).  In debug mode a
GAS trace record is captured (out-of-gas returns the `OutOfGas` code without
charging); then `Contract.UseGas` charges the amount, panicking with
`ErrOutOfGas` on failure.  `contractGas` is the gas of the scope returned by
`in.Scope()` (the current call frame's contract, shared with the debug-branch
scope copy). -/
def gasCheckHostFn (debug : Bool) (l : LoggerState) (contractGas depth : Nat)
    (params : List Int) : GasCallResult :=
  if params.length ≠ 1 then .panicked .outOfGas contractGas l
  else
    let v : Int := (params.get? 0).getD 0
    let gasSpend : Nat := (v % (2 ^ 64 : Int)).toNat
    if debug then
      if contractGas < gasSpend then
        match CaptureGasState l gasSpend contractGas depth (some .outOfGas) with
        | .error m => .loggerPanicked m
        | .ok l₁ => .returned .outOfGas contractGas l₁
      else
        match CaptureGasState l gasSpend contractGas depth none with
        | .error m => .loggerPanicked m
        | .ok l₁ =>
          let u := UseGas contractGas gasSpend
          if u.1 then .returned .ok u.2 l₁ else .panicked .outOfGas u.2 l₁
    else
      let u := UseGas contractGas gasSpend
      if u.1 then .returned .ok u.2 l else .panicked .outOfGas u.2 l

/-- The gas-charging phase of `execEvmOp` (`core/vm/wasm.go` lines 394–414):
charge the opcode's constant gas, then — when the opcode has a dynamic-gas
function — fail with `ErrGasUintOverflow` on memory-size overflow and charge
the dynamic cost, failing with `ErrOutOfGas` when the dynamic-gas function
errors or gas is insufficient.  Returns the remaining gas on success.
The constant cost, overflow flag and dynamic-gas outcome come from the
external `JumpTable`. -/
def execEvmOpGasCharge (gas constantGas : Nat) (memOverflow : Bool)
    (dynamicGas : Option (Except Unit Nat)) : Except VMError Nat :=
  if gas < constantGas then .error .outOfGas
  else
    let g₁ := gas - constantGas
    match dynamicGas with
    | none => .ok g₁
    | some dres =>
      if memOverflow then .error .gasUintOverflow
      else
        match dres with
        | .error _ => .error .outOfGas
        | .ok dcost => if g₁ < dcost then .error .outOfGas else .ok (g₁ - dcost)

/-- The interpreter's call-depth and scope-queue state (`in.evm.depth` and
`in.stateQueue`); scopes are modelled by identifiers. -/
structure RunState where
  depth : Nat
  queue : List Nat
deriving DecidableEq, Repr

/-- The entry sequence of `Run` acting on the depth and the scope queue
(`core/vm/wasm.go` lines 119–121 and 200–208): increment the depth, panic
(`none`) unless `len(stateQueue) == depth-1`, then append the new scope. -/
def runEnter (s : RunState) (sc : Nat) : Option RunState :=
  let d := s.depth + 1
  if s.queue.length ≠ d - 1 then none
  else some ⟨d, s.queue ++ [sc]⟩

/-- The deferred exit sequence of `Run`: truncate the queue to
`[0 : depth-1]` (still at the incremented depth), then decrement the depth. -/
def runExit (s : RunState) : RunState :=
  ⟨s.depth - 1, s.queue.take (s.depth - 1)⟩

/-- Model of `Scope()` (`core/vm/wasm.go` lines 49–56): panic (`none`) when
`depth-1 >= len(stateQueue)`, otherwise return `stateQueue[depth-1]`. -/
def Scope (s : RunState) : Option Nat :=
  if s.queue.length ≤ s.depth - 1 then none
  else s.queue.get? (s.depth - 1)

/-- States of the interpreter at which a host callback can run: reached by
entering `Run` from the quiescent initial state `⟨0, []⟩`, possibly nested
(a nested EVM call re-enters `Run` from a host callback).  Returning from a
nested call restores exactly the enclosing `InCall` state
(`runExit (runEnter s sc) = s`), so no separate exit rule is needed. -/
inductive InCall : RunState → Prop
  | root (sc : Nat) (s : RunState) : runEnter ⟨0, []⟩ sc = some s → InCall s
  | nest (sc : Nat) (s s' : RunState) : InCall s → runEnter s sc = some s' → InCall s'

/-- The `readOnly` flag of the interpreter after one `Run(contract, input,
readOnly)` returns, as a function of the flag before the call
(`core/vm/wasm.go` lines 114–139): lines 125–128 arm a restore-to-`false`
defer only when entering read-only mode from a non-read-only state; the
empty-code early return (line 136) exits there; otherwise line 139 sets the
flag to the `readOnly` argument unconditionally, and the armed defer (if
any) resets it to `false` on exit. -/
def readOnlyAfterRun (inReadOnly readOnly emptyCode : Bool) : Bool :=
  let armed := readOnly && !inReadOnly
  let flag := if armed then true else inReadOnly
  if emptyCode then (if armed then false else flag)
  else
    let flag := readOnly
    if armed then false else flag

/-- The engine return-code translation of `Run` (`core/vm/wasm.go` lines
255–262 together with the stop-token clearing at lines 341–343).  `e` is the
error value already produced by `ComputeResult` (kept when the code matches
no branch). -/
def runTranslateEngineCode (code : ComputeTraceErrorCode) (e : Option VMError) :
    Option VMError :=
  let e₁ :=
    if code = .outOfGas then some VMError.outOfGas
    else if code = .executionReverted ∨ code = .unknown then
      some VMError.executionReverted
    else if code = .stopToken then some VMError.stopToken
    else e
  if e₁ = some VMError.stopToken then none else e₁

/-- A WASM-family trace record for a `call` instruction, as `CaptureWasmState`
appends one right before a host call enters the interpreter. -/
def sampleWasmCallLog : WasmLog :=
  { pc := 7, opFamily := .wasm, op := .wasmOp 7 0x10 "call" [], params := [],
    gas := 100, gasCost := 0, memory := none, memoryOffset := 0, memorySize := 0,
    stack := some [1, 2], returnData := none, storage := none, depth := 1,
    refundCounter := 0, err := none, keep := 0, drop := 0 }

/-- A logger state right after the WASM `call` record was captured, with the
configuration the repository's tests use (`logger.Config` with
`EnableReturnData` and `Debug`, no record limit). -/
def sampleLogger : LoggerState :=
  { cfgEnableMemory := false, cfgDisableStack := false, cfgDisableStorage := false,
    cfgEnableReturnData := true, cfgLimit := 0, interrupt := false, storage := [],
    logs := [sampleWasmCallLog], output := [], usedGas := 0, err := none,
    reason := none }

/-- The same logger state with a record limit of 1, already reached. -/
def sampleLimitLogger : LoggerState :=
  { sampleLogger with cfgLimit := 1 }

/-- A logger state whose last record is an EVM-family record (as left behind
by a completed host call), so the next capture's trace-order guard fires. -/
def sampleBadLastLogger : LoggerState :=
  { sampleLogger with
    logs := [evmLogOf sampleWasmCallLog .ADDRESS 90 2 (some []) none 1 0 none] }

/-- Helper: under the normal-operation hypotheses (not interrupted, last
record is a WASM `call`), `CaptureGasState` rewrites the last record into the
GAS record built by `gasLogOf`. -/
theorem captureGasState_rewrite (l : LoggerState) (last : WasmLog)
    (a g d : Nat) (e : Option VMError) (hInt : l.interrupt = false)
    (hLast : l.logs.getLast? = some last) (hFam : last.opFamily = .wasm)
    (hCode : last.op.code = wasmOpCall) :
    CaptureGasState l a g d e =
      .ok { l with logs := l.logs.dropLast ++ [gasLogOf last a g d e] } := by
  unfold CaptureGasState
  rw [hInt, hLast]
  simp [hFam, hCode]

/-- C2: for every call to `Run`, the engine's return code is translated
exactly as: `Ok` maps to a nil error, `OutOfGas` to `ErrOutOfGas`,
`ExecutionReverted` and `Unknown` both to `ErrExecutionReverted`, and
`StopToken` to a nil error (the stop token is cleared before `Run` returns,
so the caller never observes it as an error). -/
theorem c2_engine_code_translation :
    ∀ e : Option VMError,
      runTranslateEngineCode .ok none = none ∧
      runTranslateEngineCode .outOfGas e = some VMError.outOfGas ∧
      runTranslateEngineCode .executionReverted e = some VMError.executionReverted ∧
      runTranslateEngineCode .unknown e = some VMError.executionReverted ∧
      runTranslateEngineCode .stopToken e = none := by
  intro e
  refine ⟨rfl, ?_, ?_, ?_, ?_⟩ <;> simp [runTranslateEngineCode]

/-- C9 (code bug): `Run` does not restore the interpreter's `readOnly` flag
when a non-read-only call is entered from a read-only context: line 139
(`in.readOnly = readOnly`) overwrites the flag unconditionally and the
restore defer of lines 125–128 is only armed when the flag was newly set, so
after `Run(contract, input, false)` returns from a state with
`in.readOnly = true`, the flag is `false` instead of the original `true` —
contradicting the code's own comment ("this also makes sure that the
readOnly flag isn't removed for child calls"). -/
theorem c9_readonly_flag_clobbered :
    readOnlyAfterRun true false false = false := rfl

/-- C3: for a host call whose opcode has a `copy_last_stack_item_to_memory`
finalizer, when the top stack item's minimal byte representation fits in
`destLen` bytes the finalizer takes the top of the EVM stack, left-pads its
bytes with zeroes to exactly `destLen` bytes, and writes them to guest memory
at the offset given by the last host-call argument; `destLen` is fixed per
opcode class: Address 20, U256 32, Size/Uint32 4, Uint64 8, Hash 32, Bool 1. -/
theorem c3_finalizer_left_pads :
    ∀ (destLen : Nat) (input : List Nat) (top off : Nat),
      input.getLast? = some off →
      (natBytesBE top).length ≤ destLen →
      (copyLastStackItemToMemory destLen input top =
        .ok off (List.replicate (destLen - (natBytesBE top).length) 0 ++ natBytesBE top) ∧
       (List.replicate (destLen - (natBytesBE top).length) 0 ++ natBytesBE top).length =
         destLen) ∧
      (AddressDestLen = 20 ∧ Uint256DestLen = 32 ∧ SizeDestLen = 4 ∧
       Uint32DestLen = 4 ∧ Uint64DestLen = 8 ∧ HashDestLen = 32 ∧ BoolDestLen = 1) ∧
      (∀ r ∈ registerNativeFunctionsList, ∀ dl, r.finalizerDestLen = some dl →
        dl = AddressDestLen ∨ dl = Uint256DestLen ∨ dl = SizeDestLen ∨
        dl = Uint64DestLen ∨ dl = HashDestLen ∨ dl = BoolDestLen) := by
  intro destLen input top off hLast hLen
  refine ⟨⟨?_, ?_⟩, by decide, by decide⟩
  · unfold copyLastStackItemToMemory
    rw [hLast]
    simp [Nat.not_lt.mpr hLen]
  · simp [Nat.sub_add_cancel hLen]

/-- Witness for C3 at a concrete input: `_evm_keccak256`'s Hash finalizer
(`destLen = 32`) with host-call arguments `[3, 64]` and top stack item 2. -/
theorem c3_finalizer_left_pads_witness :
    (([3, 64] : List Nat).getLast? = some 64 ∧ (natBytesBE 2).length ≤ 32) ∧
    ((copyLastStackItemToMemory 32 [3, 64] 2 =
        .ok 64 (List.replicate (32 - (natBytesBE 2).length) 0 ++ natBytesBE 2) ∧
      (List.replicate (32 - (natBytesBE 2).length) 0 ++ natBytesBE 2).length = 32) ∧
     (AddressDestLen = 20 ∧ Uint256DestLen = 32 ∧ SizeDestLen = 4 ∧
      Uint32DestLen = 4 ∧ Uint64DestLen = 8 ∧ HashDestLen = 32 ∧ BoolDestLen = 1) ∧
     (∀ r ∈ registerNativeFunctionsList, ∀ dl, r.finalizerDestLen = some dl →
       dl = AddressDestLen ∨ dl = Uint256DestLen ∨ dl = SizeDestLen ∨
       dl = Uint64DestLen ∨ dl = HashDestLen ∨ dl = BoolDestLen)) :=
  ⟨⟨by decide, by decide⟩,
   c3_finalizer_left_pads 32 [3, 64] 2 64 (by decide) (by decide)⟩

/-- C10: the finalizer write is well-defined only when the minimal byte
representation of the top stack item is at most `destLen` bytes long; when it
is longer (possible only for `destLen < 32`, e.g. `_evm_timestamp` with
`destLen = 8`), the copy into `res[destLen-len(lastBytes):]` panics with an
out-of-range slice index instead of returning an error. -/
theorem c10_finalizer_panics_on_oversized_value :
    ∀ (destLen : Nat) (input : List Nat) (top off : Nat),
      input.getLast? = some off →
      destLen < (natBytesBE top).length →
      copyLastStackItemToMemory destLen input top = .panicSliceOutOfRange ∧
      regFinalizerDestLen "_evm_timestamp" = some (some Uint64DestLen) ∧
      Uint64DestLen = 8 ∧ Uint64DestLen < 32 := by
  intro destLen input top off hLast hLt
  refine ⟨?_, by decide, by decide, by decide⟩
  unfold copyLastStackItemToMemory
  rw [hLast]
  simp [hLt]

/-- Witness for C10 at a concrete input: `_evm_timestamp`'s Uint64 finalizer
(`destLen = 8`) with a top stack item `2^64`, whose byte representation is 9
bytes long. -/
theorem c10_finalizer_panics_witness :
    (([100] : List Nat).getLast? = some 100 ∧ 8 < (natBytesBE (2 ^ 64)).length) ∧
    (copyLastStackItemToMemory 8 [100] (2 ^ 64) = .panicSliceOutOfRange ∧
     regFinalizerDestLen "_evm_timestamp" = some (some Uint64DestLen) ∧
     Uint64DestLen = 8 ∧ Uint64DestLen < 32) :=
  ⟨⟨by decide, by decide⟩,
   c10_finalizer_panics_on_oversized_value 8 [100] (2 ^ 64) 100 (by decide) (by decide)⟩

/-- C4: `CaptureGasState` and `CaptureState` replace the last record of the
trace log in place by, respectively, a GAS-family record with `GasCost` equal
to the charged amount and an EVM-family record, each inheriting the replaced
WASM record's pc, memory and stack fields; and both captures panic when the
last record is not a WASM-family record whose opcode is `call`. -/
theorem c4_capture_replaces_last_record :
    (∀ (l : LoggerState) (last : WasmLog) (a g d : Nat) (e : Option VMError),
      l.interrupt = false →
      l.logs.getLast? = some last →
      last.opFamily = OpCodeFamily.wasm →
      last.op.code = wasmOpCall →
      CaptureGasState l a g d e =
        .ok { l with logs := l.logs.dropLast ++ [gasLogOf last a g d e] } ∧
      (gasLogOf last a g d e).opFamily = OpCodeFamily.gas ∧
      (gasLogOf last a g d e).gasCost = a ∧
      (gasLogOf last a g d e).pc = last.pc ∧
      (gasLogOf last a g d e).memory = last.memory ∧
      (gasLogOf last a g d e).memoryOffset = last.memoryOffset ∧
      (gasLogOf last a g d e).memorySize = last.memorySize ∧
      (gasLogOf last a g d e).stack = last.stack) ∧
    (∀ (l : LoggerState) (last : WasmLog) (op : OpCode) (gas cost : Nat)
        (stackData rData : List Nat) (depth refund : Nat) (getState : Nat → Nat)
        (err : Option VMError),
      l.interrupt = false →
      ¬(l.cfgLimit ≠ 0 ∧ l.cfgLimit ≤ l.logs.length) →
      l.logs.getLast? = some last →
      last.opFamily = OpCodeFamily.wasm →
      last.op.code = wasmOpCall →
      ∃ r, CaptureState l op gas cost stackData rData depth refund getState err =
          .ok { l with
            storage :=
              (captureStateStorage l.cfgDisableStorage l.storage op stackData getState).1,
            logs := l.logs.dropLast ++ [r] } ∧
        r.opFamily = OpCodeFamily.evm ∧ r.pc = last.pc ∧ r.gas = gas ∧
        r.gasCost = cost ∧ r.memory = last.memory ∧
        r.memoryOffset = last.memoryOffset ∧ r.memorySize = last.memorySize ∧
        r.stack = last.stack) ∧
    (∀ (l : LoggerState) (bad : WasmLog) (a g d : Nat) (e : Option VMError)
        (op : OpCode) (gas cost : Nat) (stackData rData : List Nat)
        (depth refund : Nat) (getState : Nat → Nat) (err : Option VMError),
      l.interrupt = false →
      ¬(l.cfgLimit ≠ 0 ∧ l.cfgLimit ≤ l.logs.length) →
      l.logs.getLast? = some bad →
      (bad.opFamily ≠ OpCodeFamily.wasm ∨ bad.op.code ≠ wasmOpCall) →
      CaptureGasState l a g d e = .error .traceOrderCorrupted ∧
      CaptureState l op gas cost stackData rData depth refund getState err =
        .error .traceOrderCorrupted) := by
  refine ⟨?_, ?_, ?_⟩
  · intro l last a g d e hInt hLast hFam hCode
    exact ⟨captureGasState_rewrite l last a g d e hInt hLast hFam hCode,
      rfl, rfl, rfl, rfl, rfl, rfl, rfl⟩
  · intro l last op gas cost stackData rData depth refund getState err
      hInt hLim hLast hFam hCode
    refine ⟨evmLogOf last op gas cost
      (if l.cfgEnableReturnData then some rData else none)
      (captureStateStorage l.cfgDisableStorage l.storage op stackData getState).2
      depth refund err, ?_, rfl, rfl, rfl, rfl, rfl, rfl, rfl, rfl⟩
    unfold CaptureState
    rw [hInt, hLast]
    simp [hLim, hFam, hCode]
  · intro l bad a g d e op gas cost stackData rData depth refund getState err
      hInt hLim hLast hBad
    constructor
    · unfold CaptureGasState
      rw [hInt, hLast]
      rcases hBad with hb | hb <;> simp [hb]
    · unfold CaptureState
      rw [hInt, hLast]
      rcases hBad with hb | hb <;> simp [hLim, hb]

/-- Witness for C4 at concrete inputs: a logger whose last record is a WASM
`call` record (normal captures rewrite it) and one whose last record is an
EVM record (captures panic). -/
theorem c4_capture_replaces_last_record_witness :
    (sampleLogger.interrupt = false ∧
      sampleLogger.logs.getLast? = some sampleWasmCallLog ∧
      sampleWasmCallLog.opFamily = OpCodeFamily.wasm ∧
      sampleWasmCallLog.op.code = wasmOpCall ∧
      ¬(sampleLogger.cfgLimit ≠ 0 ∧ sampleLogger.cfgLimit ≤ sampleLogger.logs.length)) ∧
    (CaptureGasState sampleLogger 3 90 1 none =
        .ok { sampleLogger with
          logs := sampleLogger.logs.dropLast ++ [gasLogOf sampleWasmCallLog 3 90 1 none] } ∧
      (gasLogOf sampleWasmCallLog 3 90 1 none).opFamily = OpCodeFamily.gas ∧
      (gasLogOf sampleWasmCallLog 3 90 1 none).gasCost = 3 ∧
      (gasLogOf sampleWasmCallLog 3 90 1 none).pc = sampleWasmCallLog.pc ∧
      (gasLogOf sampleWasmCallLog 3 90 1 none).memory = sampleWasmCallLog.memory ∧
      (gasLogOf sampleWasmCallLog 3 90 1 none).memoryOffset = sampleWasmCallLog.memoryOffset ∧
      (gasLogOf sampleWasmCallLog 3 90 1 none).memorySize = sampleWasmCallLog.memorySize ∧
      (gasLogOf sampleWasmCallLog 3 90 1 none).stack = sampleWasmCallLog.stack) ∧
    (∃ r, CaptureState sampleLogger .ADDRESS 90 2 [] [] 1 0 (fun _ => 0) none =
        .ok { sampleLogger with
          storage := (captureStateStorage sampleLogger.cfgDisableStorage
            sampleLogger.storage .ADDRESS [] (fun _ => 0)).1,
          logs := sampleLogger.logs.dropLast ++ [r] } ∧
      r.opFamily = OpCodeFamily.evm ∧ r.pc = sampleWasmCallLog.pc ∧ r.gas = 90 ∧
      r.gasCost = 2 ∧ r.memory = sampleWasmCallLog.memory ∧
      r.memoryOffset = sampleWasmCallLog.memoryOffset ∧
      r.memorySize = sampleWasmCallLog.memorySize ∧
      r.stack = sampleWasmCallLog.stack) ∧
    (CaptureGasState sampleBadLastLogger 3 90 1 none = .error .traceOrderCorrupted ∧
      CaptureState sampleBadLastLogger .ADDRESS 90 2 [] [] 1 0 (fun _ => 0) none =
        .error .traceOrderCorrupted) :=
  ⟨⟨rfl, rfl, rfl, rfl, by decide⟩,
   c4_capture_replaces_last_record.1 sampleLogger sampleWasmCallLog 3 90 1 none
     rfl rfl rfl rfl,
   c4_capture_replaces_last_record.2.1 sampleLogger sampleWasmCallLog .ADDRESS 90 2
     [] [] 1 0 (fun _ => 0) none rfl (by decide) rfl rfl rfl,
   c4_capture_replaces_last_record.2.2 sampleBadLastLogger
     (evmLogOf sampleWasmCallLog .ADDRESS 90 2 (some []) none 1 0 none) 3 90 1 none
     .ADDRESS 90 2 [] [] 1 0 (fun _ => 0) none rfl (by decide) rfl (by decide)⟩

/-- C8 counterexample: with `limit = 1` and the trace log already holding one
record, `CaptureGasState` does not leave the log unchanged — it performs no
limit check and still rewrites the last record. -/
theorem c8_limit_counterexample :
    CaptureGasState sampleLimitLogger 5 10 1 none =
      .ok { sampleLimitLogger with logs := [gasLogOf sampleWasmCallLog 5 10 1 none] } ∧
    sampleLimitLogger.cfgLimit = 1 ∧ sampleLimitLogger.logs.length = 1 ∧
    ({ sampleLimitLogger with
        logs := [gasLogOf sampleWasmCallLog 5 10 1 none] } : LoggerState).logs ≠
      sampleLimitLogger.logs := by
  refine ⟨?_, rfl, rfl, by decide⟩
  exact captureGasState_rewrite sampleLimitLogger sampleWasmCallLog 5 10 1 none
    rfl rfl rfl rfl

/-- C8 amended: when the tracer's `limit` is positive and the trace log
already holds at least `limit` records, further `CaptureWasmState` and
`CaptureState` calls leave the log unchanged and return without panicking,
but `CaptureGasState` performs no limit check: it still rewrites the last
record (or panics when that record is not a WASM `call`). -/
theorem c8_limit_drops_wasm_and_evm_captures :
    ∀ l : LoggerState,
      l.interrupt = false → l.cfgLimit ≠ 0 → l.cfgLimit ≤ l.logs.length →
      (∀ (op : OpInfo) (memory : Option MemoryChangeInfo) (stackData : List Nat)
          (contractGas depth drop keep refund : Nat),
        CaptureWasmState l op memory stackData contractGas depth drop keep refund = l) ∧
      (∀ (op : OpCode) (gas cost : Nat) (stackData rData : List Nat)
          (depth refund : Nat) (getState : Nat → Nat) (err : Option VMError),
        CaptureState l op gas cost stackData rData depth refund getState err = .ok l) ∧
      (∀ (last : WasmLog) (a g d : Nat) (e : Option VMError),
        l.logs.getLast? = some last → last.opFamily = OpCodeFamily.wasm →
        last.op.code = wasmOpCall →
        CaptureGasState l a g d e =
          .ok { l with logs := l.logs.dropLast ++ [gasLogOf last a g d e] }) := by
  intro l hInt hLim hLen
  refine ⟨?_, ?_, ?_⟩
  · intro op memory stackData contractGas depth drop keep refund
    unfold CaptureWasmState
    rw [hInt]
    simp [hLim, hLen]
  · intro op gas cost stackData rData depth refund getState err
    unfold CaptureState
    rw [hInt]
    simp [hLim, hLen]
  · intro last a g d e hLast hFam hCode
    exact captureGasState_rewrite l last a g d e hInt hLast hFam hCode

/-- Witness for C8 at the concrete limit-reached logger. -/
theorem c8_limit_drops_witness :
    (sampleLimitLogger.interrupt = false ∧ sampleLimitLogger.cfgLimit ≠ 0 ∧
      sampleLimitLogger.cfgLimit ≤ sampleLimitLogger.logs.length) ∧
    CaptureWasmState sampleLimitLogger (.wasmOp 9 0x10 "call" []) none [] 50 1 0 0 0 =
      sampleLimitLogger ∧
    CaptureState sampleLimitLogger .ADDRESS 50 2 [] [] 1 0 (fun _ => 0) none =
      .ok sampleLimitLogger ∧
    CaptureGasState sampleLimitLogger 5 10 1 none =
      .ok { sampleLimitLogger with
        logs := sampleLimitLogger.logs.dropLast ++ [gasLogOf sampleWasmCallLog 5 10 1 none] } :=
  ⟨⟨rfl, by decide, by decide⟩,
   (c8_limit_drops_wasm_and_evm_captures sampleLimitLogger rfl (by decide) (by decide)).1
     (.wasmOp 9 0x10 "call" []) none [] 50 1 0 0 0,
   (c8_limit_drops_wasm_and_evm_captures sampleLimitLogger rfl (by decide) (by decide)).2.1
     .ADDRESS 50 2 [] [] 1 0 (fun _ => 0) none,
   (c8_limit_drops_wasm_and_evm_captures sampleLimitLogger rfl (by decide) (by decide)).2.2
     sampleWasmCallLog 5 10 1 none rfl rfl rfl⟩

/-- C1 counterexample: an invocation of the `env.gas` host function in a
non-debug configuration with remaining gas 5 and argument 10 records no GAS
trace entry at all (the trace log still holds no GAS-family record) and does
not report the `OutOfGas` return code to the engine — it panics with
`ErrOutOfGas` instead (remaining gas is indeed unchanged). -/
theorem c1_gas_counterexample :
    gasCheckHostFn false sampleLogger 5 1 [10] = .panicked .outOfGas 5 sampleLogger ∧
    (∀ lg ∈ sampleLogger.logs, lg.opFamily ≠ OpCodeFamily.gas) := by
  decide

/-- C1 amended: when tracing is enabled (`config.Debug`), the `env.gas` host
function charges `v` reinterpreted as a `u64` (`v mod 2^64`): if the
remaining gas is strictly below that amount it records a GAS trace entry
carrying the out-of-gas error and returns the `OutOfGas` code with the gas
unchanged, otherwise it subtracts the amount and records a normal GAS trace
entry.  Without debug mode no trace entry is recorded: the gas is still
charged identically, but the out-of-gas case panics with `ErrOutOfGas`
instead of returning the `OutOfGas` code. -/
theorem c1_gas_host_function :
    ∀ (l : LoggerState) (last : WasmLog) (g d : Nat) (v : Int) (amount : Nat),
      amount = (v % (2 ^ 64 : Int)).toNat →
      l.interrupt = false →
      l.logs.getLast? = some last →
      last.opFamily = OpCodeFamily.wasm →
      last.op.code = wasmOpCall →
      (g < amount →
        gasCheckHostFn true l g d [v] =
          .returned .outOfGas g
            { l with logs :=
                l.logs.dropLast ++ [gasLogOf last amount g d (some .outOfGas)] }) ∧
      (amount ≤ g →
        gasCheckHostFn true l g d [v] =
          .returned .ok (g - amount)
            { l with logs := l.logs.dropLast ++ [gasLogOf last amount g d none] }) ∧
      (g < amount → gasCheckHostFn false l g d [v] = .panicked .outOfGas g l) ∧
      (amount ≤ g →
        gasCheckHostFn false l g d [v] = .returned .ok (g - amount) l) := by
  intro l last g d v amount hAm hInt hLast hFam hCode
  subst hAm
  have hCG := fun e => captureGasState_rewrite l last
    ((v % (2 ^ 64 : Int)).toNat) g d e hInt hLast hFam hCode
  refine ⟨?_, ?_, ?_, ?_⟩
  · intro hlt
    unfold gasCheckHostFn
    rw [if_neg (show ¬([v] : List Int).length ≠ 1 by simp)]
    simp only [List.get?, Option.getD_some, if_true]
    rw [if_pos hlt, hCG (some .outOfGas)]
  · intro hle
    have hnlt : ¬g < (v % (2 ^ 64 : Int)).toNat := Nat.not_lt.mpr hle
    unfold gasCheckHostFn
    rw [if_neg (show ¬([v] : List Int).length ≠ 1 by simp)]
    simp only [List.get?, Option.getD_some, if_true]
    rw [if_neg hnlt, hCG none]
    unfold UseGas
    rw [if_neg hnlt]
    rfl
  · intro hlt
    unfold gasCheckHostFn
    rw [if_neg (show ¬([v] : List Int).length ≠ 1 by simp)]
    simp only [List.get?, Option.getD_some, Bool.false_eq_true, if_false]
    unfold UseGas
    rw [if_pos hlt]
    rfl
  · intro hle
    have hnlt : ¬g < (v % (2 ^ 64 : Int)).toNat := Nat.not_lt.mpr hle
    unfold gasCheckHostFn
    rw [if_neg (show ¬([v] : List Int).length ≠ 1 by simp)]
    simp only [List.get?, Option.getD_some, Bool.false_eq_true, if_false]
    unfold UseGas
    rw [if_neg hnlt]
    rfl

/-- Witness for C1 at a concrete input: debug mode, remaining gas 5,
argument 10 — the out-of-gas path records the GAS entry and returns the
`OutOfGas` code with gas unchanged. -/
theorem c1_gas_host_function_witness :
    ((10 : Nat) = ((10 : Int) % (2 ^ 64 : Int)).toNat ∧
      sampleLogger.interrupt = false ∧
      sampleLogger.logs.getLast? = some sampleWasmCallLog ∧
      sampleWasmCallLog.opFamily = OpCodeFamily.wasm ∧
      sampleWasmCallLog.op.code = wasmOpCall ∧ (5 : Nat) < 10) ∧
    gasCheckHostFn true sampleLogger 5 1 [10] =
      .returned .outOfGas 5
        { sampleLogger with logs :=
            sampleLogger.logs.dropLast ++
              [gasLogOf sampleWasmCallLog 10 5 1 (some .outOfGas)] } :=
  ⟨⟨by decide, rfl, rfl, rfl, rfl, by decide⟩,
   (c1_gas_host_function sampleLogger sampleWasmCallLog 5 1 10 10
     (by decide) rfl rfl rfl rfl).1 (by decide)⟩

/-- C5 counterexample: the state reached right after the outermost `Run`
pushed its scope — a state at which host callbacks run — has scope-queue
length 1 and EVM depth 1, so the length equals the depth, not depth − 1. -/
theorem c5_scope_queue_counterexample :
    InCall ⟨1, [7]⟩ ∧
    ¬((RunState.mk 1 [7]).queue.length = (RunState.mk 1 [7]).depth - 1) :=
  ⟨InCall.root 7 ⟨1, [7]⟩ (by decide), by decide⟩

/-- C5 amended: at every step of execution at which a host callback runs
(every state reached by entering `Run`, possibly nested), the scope-queue
length equals the current EVM depth — the current scope sits at *index*
depth − 1, so `Scope()` succeeds; the length equals depth − 1 only at the
instant `Run` checks it, before pushing the new scope. -/
theorem c5_scope_queue_length_equals_depth :
    ∀ s : RunState, InCall s →
      s.queue.length = s.depth ∧ 1 ≤ s.depth ∧ (Scope s).isSome = true := by
  intro s h
  induction h with
  | root sc s hEnter =>
    unfold runEnter at hEnter
    simp only [List.length_nil, Nat.add_sub_cancel, ne_eq, not_true_eq_false] at hEnter
    rw [if_neg (by simp)] at hEnter
    cases hEnter
    simp [Scope]
  | nest sc s s' h hEnter ih =>
    obtain ⟨hlen, hpos, _⟩ := ih
    unfold runEnter at hEnter
    rw [if_neg (by simp [hlen])] at hEnter
    cases hEnter
    refine ⟨by simp [hlen], Nat.le_add_left 1 s.depth, ?_⟩
    unfold Scope
    rw [if_neg (by simp [hlen])]
    simp [← hlen, List.get?_concat_length]

/-- Witness for C5 at the concrete reachable state `⟨depth 1, queue [7]⟩`. -/
theorem c5_scope_queue_witness :
    InCall ⟨1, [7]⟩ ∧
    ((RunState.mk 1 [7]).queue.length = (RunState.mk 1 [7]).depth ∧
      1 ≤ (RunState.mk 1 [7]).depth ∧ (Scope ⟨1, [7]⟩).isSome = true) :=
  ⟨InCall.root 7 ⟨1, [7]⟩ (by decide),
   c5_scope_queue_length_equals_depth ⟨1, [7]⟩ (InCall.root 7 ⟨1, [7]⟩ (by decide))⟩

/-- C6 counterexample: an `env.gas` host call charging amount 0 completes
without error (the `Ok` code is returned to the engine) yet leaves the
remaining gas unchanged at 5, so gas does not strictly decrease on every
successful host call. -/
theorem c6_zero_charge_counterexample :
    gasCheckHostFn false sampleLogger 5 1 [0] = .returned .ok 5 sampleLogger ∧
    ¬((5 : Nat) < 5) := by
  decide

/-- C6 amended: gas never increases across a host call — a successful
`env.gas` charge subtracts exactly `v mod 2^64` from the remaining gas
(strictly decreasing it whenever that amount is positive), and the
constant/dynamic gas charge of an EVM opcode dispatch never leaves more gas
than before (strictly less whenever the constant cost is positive). -/
theorem c6_gas_weakly_decreases :
    (∀ (debug : Bool) (l : LoggerState) (g d : Nat) (v : Int)
        (code : ComputeTraceErrorCode) (g' : Nat) (l' : LoggerState),
      gasCheckHostFn debug l g d [v] = .returned code g' l' →
      code = .ok →
      g' = g - (v % (2 ^ 64 : Int)).toNat ∧ g' ≤ g ∧
        (0 < (v % (2 ^ 64 : Int)).toNat → g' < g)) ∧
    (∀ (gas cg : Nat) (ov : Bool) (dg : Option (Except Unit Nat)) (g' : Nat),
      execEvmOpGasCharge gas cg ov dg = .ok g' →
      g' ≤ gas ∧ (0 < cg → g' < gas)) := by
  constructor
  · intro debug l g d v code g' l' h hok
    subst hok
    simp only [gasCheckHostFn, List.length_singleton, ne_eq, not_true_eq_false,
      List.get?, Option.getD_some, if_false, reduceIte] at h
    cases debug with
    | false =>
      simp only [Bool.false_eq_true, if_false, UseGas] at h
      by_cases hlt : g < (v % (2 ^ 64 : Int)).toNat
      · rw [if_pos hlt] at h
        simp at h
      · rw [if_neg hlt] at h
        simp only [reduceIte] at h
        obtain ⟨-, hg, -⟩ := GasCallResult.returned.inj h
        subst hg
        omega
    | true =>
      simp only [reduceIte] at h
      by_cases hlt : g < (v % (2 ^ 64 : Int)).toNat
      · rw [if_pos hlt] at h
        rcases hcg : CaptureGasState l ((v % (2 ^ 64 : Int)).toNat) g d
            (some VMError.outOfGas) with m | l₁ <;> rw [hcg] at h
        · simp at h
        · obtain ⟨hc, -, -⟩ := GasCallResult.returned.inj h
          exact absurd hc (by simp)
      · rw [if_neg hlt] at h
        rcases hcg : CaptureGasState l ((v % (2 ^ 64 : Int)).toNat) g d none
            with m | l₁ <;> rw [hcg] at h
        · simp at h
        · simp only [UseGas, if_neg hlt, reduceIte] at h
          obtain ⟨-, hg, -⟩ := GasCallResult.returned.inj h
          subst hg
          omega
  · intro gas cg ov dg g' h
    unfold execEvmOpGasCharge at h
    by_cases hlt : gas < cg
    · rw [if_pos hlt] at h
      simp at h
    · rw [if_neg hlt] at h
      cases dg with
      | none =>
        obtain hg := Except.ok.inj h
        subst hg
        omega
      | some dres =>
        cases ov with
        | true => simp at h
        | false =>
          simp only [Bool.false_eq_true, if_false, reduceIte] at h
          cases dres with
          | error u => simp at h
          | ok dcost =>
            simp only at h
            by_cases hdl : gas - cg < dcost
            · rw [if_pos hdl] at h
              simp at h
            · rw [if_neg hdl] at h
              obtain hg := Except.ok.inj h
              subst hg
              omega

/-- Witness for C6 at a concrete input: a successful non-debug gas charge of
4 out of 10 leaves 6, which is strictly less than 10. -/
theorem c6_gas_weakly_decreases_witness :
    (gasCheckHostFn false sampleLogger 10 1 [4] = .returned .ok 6 sampleLogger ∧
      ComputeTraceErrorCode.ok = ComputeTraceErrorCode.ok) ∧
    ((6 : Nat) = 10 - ((4 : Int) % (2 ^ 64 : Int)).toNat ∧ (6 : Nat) ≤ 10 ∧
      (0 < ((4 : Int) % (2 ^ 64 : Int)).toNat → (6 : Nat) < 10)) :=
  ⟨⟨by decide, rfl⟩,
   c6_gas_weakly_decreases.1 false sampleLogger 10 1 4 .ok 6 sampleLogger
     (by decide) rfl⟩

/-- C7: in the formatted execution result, `returnValue` equals the hex
encoding of the captured output when the run succeeded or failed with
`ExecutionReverted`, and is the empty string whenever the run failed with any
error other than `ExecutionReverted`. -/
theorem c7_return_value_formatting :
    ∀ (l : LoggerState) (res : WasmExecutionResult),
      l.reason = none →
      GetResult l = .ok res →
      ((l.err = none ∨ l.err = some VMError.executionReverted) →
        res.returnValue = bytesToHex l.output) ∧
      (l.err ≠ none → l.err ≠ some VMError.executionReverted →
        res.returnValue = "") := by
  intro l res hr h
  unfold GetResult at h
  rw [hr] at h
  obtain hres := Except.ok.inj h
  subst hres
  constructor
  · rintro (he | he) <;> simp [he]
  · intro hne hnrev
    rcases he : l.err with - | ev
    · exact absurd he hne
    · have : ¬(some ev = some VMError.executionReverted) := by rw [← he]; exact hnrev
      simp [he, this]

/-- Witness for C7 at a concrete input: a run failed with `ErrOutOfGas` and a
non-empty captured output formats `returnValue` as the empty string. -/
theorem c7_return_value_witness :
    (({ sampleLogger with err := some VMError.outOfGas, output := [171] } :
        LoggerState).reason = none ∧
      GetResult { sampleLogger with err := some VMError.outOfGas, output := [171] } =
        .ok ⟨0, true, ""⟩) ∧
    (⟨0, true, ""⟩ : WasmExecutionResult).returnValue = "" :=
  ⟨⟨rfl, rfl⟩,
   (c7_return_value_formatting
       { sampleLogger with err := some VMError.outOfGas, output := [171] }
       ⟨0, true, ""⟩ rfl rfl).2 (by decide) (by decide)⟩

end GoEthWasm
